import Mathlib

/-!
Shallow embedding of the core of the shillearnhub backend (Flask/SQLAlchemy),
translated from the Python sources under src/backend/.  Amounts are integer
KES (`Int`), timestamps are integer seconds (`Int`).  ORM rows become
structures, the ambient database session becomes explicit state passing, and
a Python exception that aborts a request before `db.session.commit()` is
modelled as `Except.error` leaving the persistent state unchanged.
-/

namespace ShillEarn

/-- WalletTransaction row (src/backend/models.py, class WalletTransaction):
amount in KES, `type` is "credit" or "debit". -/
structure WalletTransaction where
  amount : Int
  type : String
  description : String
  deriving Repr, DecidableEq

/-- Wallet row (src/backend/models.py, class Wallet). -/
structure Wallet where
  balance : Int
  total_earned : Int
  total_withdrawn : Int
  deriving Repr, DecidableEq

/-- Wallet.add_funds (src/backend/models.py lines 230-242): increases balance
and total_earned, returns the created credit transaction. -/
def Wallet.add_funds (w : Wallet) (amount : Int) (description : String) :
    Wallet × WalletTransaction :=
  ({ w with balance := w.balance + amount, total_earned := w.total_earned + amount },
   { amount := amount, type := "credit", description := description })

/-- Wallet.deduct_funds (src/backend/models.py lines 244-258): raises
ValueError "Insufficient funds" when balance < amount, otherwise decreases
balance and returns the created debit transaction. -/
def Wallet.deduct_funds (w : Wallet) (amount : Int) (description : String) :
    Except String (Wallet × WalletTransaction) :=
  if w.balance < amount then .error "Insufficient funds"
  else .ok ({ w with balance := w.balance - amount },
            { amount := amount, type := "debit", description := description })

/-- A wallet together with its transaction log (the `transactions`
relationship of class Wallet). -/
structure LedgerState where
  wallet : Wallet
  transactions : List WalletTransaction
  deriving Repr, DecidableEq

/-- One ledger operation: a call to add_funds or deduct_funds. -/
inductive WalletOp where
  | credit (amount : Int) (description : String)
  | debit (amount : Int) (description : String)
  deriving Repr, DecidableEq

/-- Amount carried by a ledger operation. -/
def WalletOp.amount : WalletOp → Int
  | .credit a _ => a
  | .debit a _ => a

/-- Apply one ledger operation: add_funds always succeeds and appends its
credit transaction; deduct_funds with insufficient balance raises, aborting
the request with the state unchanged. -/
def applyOp (st : LedgerState) : WalletOp → LedgerState
  | .credit a d =>
      let wt := st.wallet.add_funds a d
      { wallet := wt.1, transactions := st.transactions ++ [wt.2] }
  | .debit a d =>
      match st.wallet.deduct_funds a d with
      | .ok wt => { wallet := wt.1, transactions := st.transactions ++ [wt.2] }
      | .error _ => st

/-- Run a sequence of ledger operations. -/
def runOps (st : LedgerState) (ops : List WalletOp) : LedgerState :=
  ops.foldl applyOp st

lemma applyOp_balance_nonneg (st : LedgerState) (op : WalletOp)
    (h0 : 0 ≤ st.wallet.balance) (hpos : 0 < op.amount) :
    0 ≤ (applyOp st op).wallet.balance := by
  cases op with
  | credit a d =>
      simp only [applyOp, Wallet.add_funds]
      simp only [WalletOp.amount] at hpos
      omega
  | debit a d =>
      simp only [applyOp, Wallet.deduct_funds]
      by_cases hlt : st.wallet.balance < a
      · simp [hlt, h0]
      · simp only [hlt, if_false]
        simp only [WalletOp.amount] at hpos
        omega

lemma runOps_balance_nonneg (ops : List WalletOp) (st : LedgerState)
    (h0 : 0 ≤ st.wallet.balance) (hpos : ∀ op ∈ ops, 0 < op.amount) :
    0 ≤ (runOps st ops).wallet.balance := by
  induction ops generalizing st with
  | nil => simpa [runOps] using h0
  | cons op rest ih =>
      have h1 : 0 ≤ (applyOp st op).wallet.balance :=
        applyOp_balance_nonneg st op h0 (hpos op (by simp))
      have := ih (applyOp st op) h1 (fun o ho => hpos o (by simp [ho]))
      simpa [runOps] using this

/-- C3: starting from a non-negative balance, any sequence of positive-amount
credits/debits keeps the balance non-negative; a debit exceeding the balance
leaves both the balance and the transaction log unchanged; an allowed debit
decreases the balance by exactly the amount and appends exactly one debit
transaction. -/
theorem C3_wallet_invariant (st : LedgerState) (ops : List WalletOp)
    (h0 : 0 ≤ st.wallet.balance) (hpos : ∀ op ∈ ops, 0 < op.amount) :
    0 ≤ (runOps st ops).wallet.balance ∧
    (∀ a d, st.wallet.balance < a → applyOp st (.debit a d) = st) ∧
    (∀ a d, a ≤ st.wallet.balance →
      (applyOp st (.debit a d)).wallet.balance = st.wallet.balance - a ∧
      (applyOp st (.debit a d)).wallet.total_earned = st.wallet.total_earned ∧
      (applyOp st (.debit a d)).transactions
        = st.transactions ++ [{ amount := a, type := "debit", description := d }]) := by
  refine ⟨runOps_balance_nonneg ops st h0 hpos, ?_, ?_⟩
  · intro a d hlt
    simp [applyOp, Wallet.deduct_funds, hlt]
  · intro a d hle
    have hlt : ¬ st.wallet.balance < a := not_lt.mpr hle
    simp [applyOp, Wallet.deduct_funds, hlt]

/-- Witness for C3 at a concrete wallet and operation list. -/
theorem C3_wallet_invariant_witness :
    0 ≤ (runOps { wallet := { balance := 5, total_earned := 5, total_withdrawn := 0 },
                  transactions := [] }
          [.credit 3 "reward", .debit 10 "withdrawal", .debit 2 "withdrawal"]).wallet.balance ∧
    (∀ a d, (5 : Int) < a →
      applyOp { wallet := { balance := 5, total_earned := 5, total_withdrawn := 0 },
                transactions := [] } (.debit a d)
        = { wallet := { balance := 5, total_earned := 5, total_withdrawn := 0 },
            transactions := [] }) ∧
    (∀ a d, a ≤ (5 : Int) →
      (applyOp { wallet := { balance := 5, total_earned := 5, total_withdrawn := 0 },
                 transactions := [] } (.debit a d)).wallet.balance = 5 - a ∧
      (applyOp { wallet := { balance := 5, total_earned := 5, total_withdrawn := 0 },
                 transactions := [] } (.debit a d)).wallet.total_earned = 5 ∧
      (applyOp { wallet := { balance := 5, total_earned := 5, total_withdrawn := 0 },
                 transactions := [] } (.debit a d)).transactions
        = [{ amount := a, type := "debit", description := d }]) := by
  have h := C3_wallet_invariant
    { wallet := { balance := 5, total_earned := 5, total_withdrawn := 0 }, transactions := [] }
    [.credit 3 "reward", .debit 10 "withdrawal", .debit 2 "withdrawal"]
    (by norm_num)
    (by decide)
  simpa using h

/-- Withdrawal row (src/backend/models.py, class Withdrawal). -/
structure Withdrawal where
  user_id : Nat
  amount : Int
  method : String
  status : String
  account_info : String
  processed_at : Option Int
  deriving Repr, DecidableEq

/-- request_withdrawal (src/backend/wallet/routes.py lines 78-131): validates
the amount (positive integer), checks the balance, validates the method,
creates a pending Withdrawal and debits the wallet via deduct_funds.  The
wallet argument is the requesting user's wallet (the route rejects users
without a wallet before reaching this logic). -/
def request_withdrawal (uid : Nat) (wallet : Wallet) (txns : List WalletTransaction)
    (amount : Int) (method : String) (account_info : String) :
    Except String (Wallet × List WalletTransaction × Withdrawal) :=
  if amount ≤ 0 then .error "Invalid amount"
  else if wallet.balance < amount then .error "Insufficient balance"
  else if ¬ (method = "mpesa" ∨ method = "bank" ∨ method = "paypal") then
    .error "Invalid method"
  else
    match wallet.deduct_funds amount ("Withdrawal request via " ++ method) with
    | .error e => .error e
    | .ok wt =>
        .ok (wt.1, txns ++ [wt.2],
             { user_id := uid, amount := amount, method := method,
               status := "pending", account_info := account_info, processed_at := none })

/-- process_withdrawal (src/backend/admin/routes.py lines 385-420): validates
the new status; when moving away from pending it stamps processed_at and, on
"failed", refunds the amount via add_funds; then it unconditionally overwrites
the status with the requested value.  The wallet argument is the withdrawing
user's wallet (the code guards `if user and user.wallet`). -/
def process_withdrawal (w : Withdrawal) (new_status : String) (now : Int)
    (wallet : Wallet) (txns : List WalletTransaction) :
    Except String (Withdrawal × Wallet × List WalletTransaction) :=
  if ¬ (new_status = "pending" ∨ new_status = "completed" ∨ new_status = "failed") then
    .error "Invalid status"
  else
    let step :=
      if new_status ≠ "pending" ∧ w.status = "pending" then
        let w1 := { w with processed_at := some now }
        if new_status = "failed" then
          let wt := wallet.add_funds w.amount "Refund for failed withdrawal"
          (w1, wt.1, txns ++ [wt.2])
        else (w1, wallet, txns)
      else (w, wallet, txns)
    .ok ({ step.1 with status := new_status }, step.2.1, step.2.2)

/-- Request a withdrawal and then resolve it as failed (the round trip of
claims C7 and C10). -/
def requestThenFail (uid : Nat) (wallet : Wallet) (txns : List WalletTransaction)
    (amount : Int) (method : String) (account_info : String) (now : Int) :
    Except String (Withdrawal × Wallet × List WalletTransaction) :=
  match request_withdrawal uid wallet txns amount method account_info with
  | .error e => .error e
  | .ok r => process_withdrawal r.2.2 "failed" now r.1 r.2.1

/-- A concrete already-completed withdrawal, used on claim C5. -/
def wdTerminal : Withdrawal :=
  { user_id := 7, amount := 500, method := "mpesa", status := "completed",
    account_info := "0712345678", processed_at := some 1000 }

/-- A concrete wallet, used on claim C5. -/
def walC5 : Wallet := { balance := 100, total_earned := 600, total_withdrawn := 0 }

/-- C5 counterexample: resolving the already-completed withdrawal `wdTerminal`
as "failed" is accepted and overwrites its status (to "failed"), so the status
of a terminal withdrawal does change again, contradicting the claim that any
further resolution attempt is rejected as a no-op.  (The wallet is indeed left
unmutated in this step.) -/
theorem C5_terminal_status_changes :
    process_withdrawal wdTerminal "failed" 2000 walC5 []
      = .ok ({ wdTerminal with status := "failed" }, walC5, []) ∧
    ({ wdTerminal with status := "failed" }).status ≠ wdTerminal.status := by
  constructor
  · rfl
  · decide

/-- C5 amended: resolving a withdrawal that is already terminal ("completed"
or "failed") performs no wallet mutation, appends no transaction and does not
touch processed_at, but it does overwrite the stored status with the requested
value (it is not rejected). -/
theorem C5_terminal_no_refund (w : Withdrawal) (ns : String) (now : Int)
    (wallet : Wallet) (txns : List WalletTransaction)
    (hterm : w.status = "completed" ∨ w.status = "failed")
    (hns : ns = "pending" ∨ ns = "completed" ∨ ns = "failed") :
    process_withdrawal w ns now wallet txns = .ok ({ w with status := ns }, wallet, txns) := by
  have hnp : ¬ w.status = "pending" := by
    rcases hterm with h | h <;> simp [h]
  simp [process_withdrawal, hns, hnp]

/-- Witness for C5 amended at a concrete terminal withdrawal. -/
theorem C5_terminal_no_refund_witness :
    process_withdrawal wdTerminal "pending" 2000 walC5 []
      = .ok ({ wdTerminal with status := "pending" }, walC5, []) :=
  C5_terminal_no_refund wdTerminal "pending" 2000 walC5 []
    (Or.inl rfl) (Or.inl rfl)

/-- A concrete pending withdrawal of amount 500, used on claim C6. -/
def wdPending : Withdrawal :=
  { user_id := 7, amount := 500, method := "mpesa", status := "pending",
    account_info := "0712345678", processed_at := none }

/-- C6 evaluation at the failing input: resolving the pending withdrawal
`wdPending` (amount 500) as "completed" leaves wallet.total_withdrawn exactly
as it was (0), because nothing in the code base ever updates total_withdrawn;
the claim instead requires it to be incremented by 500. -/
theorem C6_total_withdrawn_not_incremented :
    process_withdrawal wdPending "completed" 2000 walC5 []
      = .ok ({ wdPending with status := "completed", processed_at := some 2000 },
             walC5, []) ∧
    walC5.total_withdrawn = 0 := by
  constructor
  · rfl
  · rfl

lemma request_withdrawal_ok (uid : Nat) (wallet : Wallet)
    (txns : List WalletTransaction) (a : Int) (method acct : String)
    (hpos : 0 < a) (hbal : a ≤ wallet.balance)
    (hm : method = "mpesa" ∨ method = "bank" ∨ method = "paypal") :
    request_withdrawal uid wallet txns a method acct
      = .ok ({ wallet with balance := wallet.balance - a },
             txns ++ [{ amount := a, type := "debit",
                        description := "Withdrawal request via " ++ method }],
             { user_id := uid, amount := a, method := method,
               status := "pending", account_info := acct, processed_at := none }) := by
  unfold request_withdrawal
  rw [if_neg (by omega), if_neg (by omega), if_neg (by simp [hm])]
  unfold Wallet.deduct_funds
  rw [if_neg (by omega)]

lemma process_failed_pending (w : Withdrawal) (now : Int) (wallet : Wallet)
    (txns : List WalletTransaction) (hp : w.status = "pending") :
    process_withdrawal w "failed" now wallet txns
      = .ok ({ w with status := "failed", processed_at := some now },
             { wallet with balance := wallet.balance + w.amount,
                           total_earned := wallet.total_earned + w.amount },
             txns ++ [{ amount := w.amount, type := "credit",
                        description := "Refund for failed withdrawal" }]) := by
  unfold process_withdrawal
  rw [if_neg (by simp), if_pos (by exact ⟨by decide, hp⟩), if_pos rfl]
  rfl

lemma requestThenFail_ok (uid : Nat) (wallet : Wallet)
    (txns : List WalletTransaction) (a : Int) (method acct : String) (now : Int)
    (hpos : 0 < a) (hbal : a ≤ wallet.balance)
    (hm : method = "mpesa" ∨ method = "bank" ∨ method = "paypal") :
    requestThenFail uid wallet txns a method acct now
      = .ok ({ user_id := uid, amount := a, method := method, status := "failed",
               account_info := acct, processed_at := some now },
             { balance := wallet.balance,
               total_earned := wallet.total_earned + a,
               total_withdrawn := wallet.total_withdrawn },
             txns ++ [{ amount := a, type := "debit",
                        description := "Withdrawal request via " ++ method },
                      { amount := a, type := "credit",
                        description := "Refund for failed withdrawal" }]) := by
  have h2 : requestThenFail uid wallet txns a method acct now
      = process_withdrawal
          { user_id := uid, amount := a, method := method, status := "pending",
            account_info := acct, processed_at := none } "failed" now
          { wallet with balance := wallet.balance - a }
          (txns ++ [{ amount := a, type := "debit",
                      description := "Withdrawal request via " ++ method }]) := by
    unfold requestThenFail
    rw [request_withdrawal_ok uid wallet txns a method acct hpos hbal hm]
  rw [h2, process_failed_pending _ _ _ _ rfl]
  simp only [Except.ok.injEq, Prod.mk.injEq, List.append_assoc, List.cons_append,
    List.nil_append]
  refine ⟨trivial, ?_, trivial⟩
  have hb : wallet.balance - a + a = wallet.balance := by omega
  simp [hb]

/-- C7: a withdrawal request for an amount within balance followed by
resolving that withdrawal as failed restores the balance to its pre-request
value, appends exactly the original debit transaction plus one new credit
transaction (the debit is retained, not reversed), and leaves total_withdrawn
unchanged. -/
theorem C7_request_fail_roundtrip (uid : Nat) (wallet : Wallet)
    (txns : List WalletTransaction) (a : Int) (method acct : String) (now : Int)
    (hpos : 0 < a) (hbal : a ≤ wallet.balance)
    (hm : method = "mpesa" ∨ method = "bank" ∨ method = "paypal") :
    requestThenFail uid wallet txns a method acct now
      = .ok ({ user_id := uid, amount := a, method := method, status := "failed",
               account_info := acct, processed_at := some now },
             { balance := wallet.balance,
               total_earned := wallet.total_earned + a,
               total_withdrawn := wallet.total_withdrawn },
             txns ++ [{ amount := a, type := "debit",
                        description := "Withdrawal request via " ++ method },
                      { amount := a, type := "credit",
                        description := "Refund for failed withdrawal" }]) :=
  requestThenFail_ok uid wallet txns a method acct now hpos hbal hm

/-- Witness for C7 at a concrete wallet and amount. -/
theorem C7_request_fail_roundtrip_witness :
    requestThenFail 7 { balance := 1000, total_earned := 1000, total_withdrawn := 0 }
        [] 500 "mpesa" "0712345678" 42
      = .ok ({ user_id := 7, amount := 500, method := "mpesa", status := "failed",
               account_info := "0712345678", processed_at := some 42 },
             { balance := 1000, total_earned := 1500, total_withdrawn := 0 },
             [{ amount := 500, type := "debit",
                description := "Withdrawal request via mpesa" },
              { amount := 500, type := "credit",
                description := "Refund for failed withdrawal" }]) := by
  have h := C7_request_fail_roundtrip 7
    { balance := 1000, total_earned := 1000, total_withdrawn := 0 }
    [] 500 "mpesa" "0712345678" 42 (by norm_num) (by norm_num) (Or.inl rfl)
  simpa using h

/-- C10: the refund of a failed withdrawal goes through the generic add_funds
path, which also increments total_earned: after the request-then-fail round
trip the balance is back to its pre-request value but total_earned is higher
by the withdrawn amount. -/
theorem C10_refund_inflates_total_earned (uid : Nat) (wallet : Wallet)
    (txns : List WalletTransaction) (a : Int) (method acct : String) (now : Int)
    (hpos : 0 < a) (hbal : a ≤ wallet.balance)
    (hm : method = "mpesa" ∨ method = "bank" ∨ method = "paypal") :
    (requestThenFail uid wallet txns a method acct now).map
        (fun r => (r.2.1.balance, r.2.1.total_earned))
      = .ok (wallet.balance, wallet.total_earned + a) := by
  rw [requestThenFail_ok uid wallet txns a method acct now hpos hbal hm]
  rfl

/-- Witness for C10 at a concrete wallet and amount. -/
theorem C10_refund_inflates_total_earned_witness :
    (requestThenFail 7 { balance := 1000, total_earned := 1000, total_withdrawn := 0 }
        [] 500 "mpesa" "0712345678" 42).map
        (fun r => (r.2.1.balance, r.2.1.total_earned))
      = .ok (1000, 1500) := by
  have h := C10_refund_inflates_total_earned 7
    { balance := 1000, total_earned := 1000, total_withdrawn := 0 }
    [] 500 "mpesa" "0712345678" 42 (by norm_num) (by norm_num) (Or.inl rfl)
  simpa using h

/-- MembershipTier row (src/backend/models.py, class MembershipTier). -/
structure MembershipTier where
  name : String
  price : Int
  daily_missions : Nat
  referral_levels : Nat
  is_active : Bool
  deriving Repr, DecidableEq

/-- Membership row (src/backend/models.py, class Membership).  The ORM
`tier` relationship (via tier_id) is inlined as a field. -/
structure Membership where
  tier : MembershipTier
  start_date : Int
  end_date : Int
  is_active : Bool
  payment_id : Option String
  deriving Repr, DecidableEq

/-- Membership.is_expired (src/backend/models.py lines 157-159):
`datetime.utcnow() > self.end_date`. -/
def Membership.is_expired (m : Membership) (now : Int) : Bool :=
  m.end_date < now

/-- Referral row (src/backend/models.py, class Referral). -/
structure Referral where
  referrer_id : Nat
  referred_id : Nat
  level : Nat
  deriving Repr, DecidableEq

/-- ReferralCommission row (src/backend/models.py, class ReferralCommission). -/
structure ReferralCommission where
  referral_id : Nat
  amount : Int
  description : String
  deriving Repr, DecidableEq

/-- calculate_referral_commission (src/backend/wallet/utils.py lines 48-59):
`int(amount * rate)` with rates 10%, 5%, 3%, 2%, 1% for levels 1..5 and 0
otherwise.  For non-negative amounts `int(...)` is floor.  This helper is
defined in the repository but never called by any route. -/
def calculate_referral_commission (amount : Int) (level : Nat) : Int :=
  let rate : Int :=
    match level with
    | 1 => 10
    | 2 => 5
    | 3 => 3
    | 4 => 2
    | 5 => 1
    | _ => 0
  amount * rate / 100

/-- Payment row (src/backend/models.py, class Payment). -/
structure Payment where
  user_id : Nat
  amount : Int
  method : String
  status : String
  reference : String
  description : String
  completed_at : Option Int
  deriving Repr, DecidableEq

/-- User row as seen by the payment callback: id, optional membership,
wallet. -/
structure PUser where
  id : Nat
  membership : Option Membership
  wallet : Wallet
  deriving Repr, DecidableEq

/-- The relevant database tables for the payment callback. -/
structure PayDB where
  payments : List Payment
  users : List PUser
  tiers : List MembershipTier
  referrals : List Referral
  commissions : List ReferralCommission
  deriving Repr, DecidableEq

/-- Update the first list element satisfying the test (a SQLAlchemy
`.first()` / `.get()` row mutated in place). -/
def updateFirst {α : Type} (p : α → Bool) (f : α → α) : List α → List α
  | [] => []
  | x :: xs => if p x then f x :: xs else x :: updateFirst p f xs

/-- Structural splitter on the two-character separator ": "
(Python str.split, leftmost non-overlapping). -/
def splitOnColonSpace : List Char → List (List Char)
  | [] => [[]]
  | ':' :: ' ' :: rest => [] :: splitOnColonSpace rest
  | c :: rest =>
    match splitOnColonSpace rest with
    | [] => [[c]]
    | g :: gs => (c :: g) :: gs

/-- The tier-name parse in mpesa_callback (src/backend/payment/routes.py
line 135): `payment.description.split(': ')[1] if ': ' in
payment.description else None`. -/
def parse_tier_name (description : String) : Option String :=
  let groups := splitOnColonSpace description.toList
  if 2 ≤ groups.length then (groups.drop 1).head?.map String.mk else none

/-- mpesa_callback (src/backend/payment/routes.py lines 111-164) as a
transition on the persisted database state.  On ResultCode 0 it marks the
payment completed and creates or overwrites the purchaser's membership; it
performs no wallet credit and creates no ReferralCommission row.  In the
branch where the user already has a membership the handler evaluates
`timedelta(days=365)` although payment/routes.py never imports timedelta, so
the request raises NameError before `db.session.commit()` and no state is
persisted; an uncommitted abort is modelled as `.error` with the state
unchanged.  If the user row is missing while a tier resolved, `user.membership`
raises AttributeError the same way. -/
def mpesa_callback (db : PayDB) (reference : String) (result_code : Int)
    (now : Int) : Except String PayDB :=
  match db.payments.find? (fun p => p.reference = reference) with
  | none => .error "Payment not found"
  | some payment =>
    if result_code = 0 then
      let payments1 := updateFirst (fun p => p.reference = reference)
        (fun p => { p with status := "completed", completed_at := some now })
        db.payments
      match parse_tier_name payment.description with
      | none => .ok { db with payments := payments1 }
      | some tname =>
        match db.tiers.find? (fun t => t.name = tname) with
        | none => .ok { db with payments := payments1 }
        | some tier =>
          match db.users.find? (fun u => u.id = payment.user_id) with
          | none => .error "AttributeError"
          | some user =>
            match user.membership with
            | some _ => .error "NameError: name timedelta is not defined"
            | none =>
              let memb : Membership :=
                { tier := tier, start_date := now, end_date := now + 365 * 86400,
                  is_active := true, payment_id := some reference }
              .ok { db with
                      payments := payments1,
                      users := updateFirst (fun u => u.id = payment.user_id)
                        (fun u => { u with membership := some memb }) db.users }
    else
      .ok { db with
              payments := updateFirst (fun p => p.reference = reference)
                (fun p => { p with status := "failed" }) db.payments }

/-- The `basic` tier of the C1 scenario (src/backend/config.py lines 44-48):
price 3500, 1 daily mission, 3 referral levels. -/
def tierBasic : MembershipTier :=
  { name := "basic", price := 3500, daily_missions := 1, referral_levels := 3,
    is_active := true }

/-- An empty wallet. -/
def wallet0 : Wallet := { balance := 0, total_earned := 0, total_withdrawn := 0 }

/-- The C1 scenario database: B (id 1) referred C (id 2), C referred D
(id 3), so D has a level-1 edge from C and a level-2 edge from B; D has a
pending payment "R1" of 3500 for the basic tier and no membership yet. -/
def dbC1 : PayDB :=
  { payments := [{ user_id := 3, amount := 3500, method := "mpesa",
                   status := "pending", reference := "R1",
                   description := "Membership: basic", completed_at := none }],
    users := [{ id := 1, membership := none, wallet := wallet0 },
              { id := 2, membership := none, wallet := wallet0 },
              { id := 3, membership := none, wallet := wallet0 }],
    tiers := [tierBasic],
    referrals := [{ referrer_id := 1, referred_id := 2, level := 1 },
                  { referrer_id := 2, referred_id := 3, level := 1 },
                  { referrer_id := 1, referred_id := 3, level := 2 }],
    commissions := [] }

/-- C1 at the failing input: processing the successful payment callback for
D's basic-tier purchase succeeds (payment completed, membership created) but
credits no wallet at all and appends no ReferralCommission row: every wallet
is still `wallet0` and the commissions table is still empty, where the claim
requires C's wallet credited 350 and B's credited 175.  The repository's own
rate helper would have computed those amounts. -/
theorem C1_no_commission_paid :
    (mpesa_callback dbC1 "R1" 0 1000).map
        (fun db => (db.users.map (fun u => u.wallet), db.commissions))
      = .ok ([wallet0, wallet0, wallet0], []) ∧
    calculate_referral_commission 3500 1 = 350 ∧
    calculate_referral_commission 3500 2 = 175 := by
  refine ⟨?_, rfl, rfl⟩
  rfl

/-- C2 at the failing input: invoking the callback twice with success for the
same reference "R1" does not credit the referrer wallets exactly once — they
are credited zero times (the first call changes no wallet) — and the second
invocation is not a clean no-op: because payment/routes.py uses timedelta
without importing it, the existing-membership branch raises NameError and the
request aborts uncommitted. -/
theorem C2_second_callback_crashes :
    ((mpesa_callback dbC1 "R1" 0 1000).map
        (fun db => db.users.map (fun u => u.wallet))
      = .ok [wallet0, wallet0, wallet0]) ∧
    (mpesa_callback dbC1 "R1" 0 1000).bind
        (fun db => mpesa_callback db "R1" 0 2000)
      = .error "NameError: name timedelta is not defined" := by
  constructor
  · rfl
  · rfl

/-- User row as seen by registration: id, username (the referral code is a
username), optional membership. -/
structure RUser where
  id : Nat
  username : String
  membership : Option Membership
  deriving Repr, DecidableEq

/-- The upward walk of register (src/backend/auth/routes.py lines 65-81):
for level in 2..5, find the edge whose referred party is the current user
(break if none, or if the referrer row is missing); create the level edge
(ancestor, new_user) only when `indirect_referrer.membership` exists and
`membership.tier.referral_levels >= level`; in all cases continue the walk
from the ancestor. -/
def referral_walk (users : List RUser) (referrals : List Referral)
    (newId : Nat) : List Nat → Nat → List Referral
  | [], _ => []
  | level :: rest, currentId =>
    match referrals.find? (fun r => r.referred_id = currentId) with
    | none => []
    | some rel =>
      match users.find? (fun u => u.id = rel.referrer_id) with
      | none => []
      | some ind =>
        (match ind.membership with
         | some m =>
             if level ≤ m.tier.referral_levels then
               [{ referrer_id := ind.id, referred_id := newId, level := level }]
             else []
         | none => []) ++ referral_walk users referrals newId rest ind.id

/-- The referral handling of register (src/backend/auth/routes.py lines
56-81): resolve the referral code to a referrer by username (silently no
edges if it does not resolve), create the level-1 edge, then run the upward
walk for levels 2..5.  Returns the list of newly created Referral rows. -/
def record_referral (users : List RUser) (referrals : List Referral)
    (newId : Nat) (referral_code : String) : List Referral :=
  match users.find? (fun u => u.username = referral_code) with
  | none => []
  | some referrer =>
    { referrer_id := referrer.id, referred_id := newId, level := 1 } ::
      referral_walk users referrals newId [2, 3, 4, 5] referrer.id

/-- A membership that is inactive and long expired, on a tier allowing all
five referral levels; held by the C4 ancestor. -/
def membInactive : Membership :=
  { tier := { name := "max", price := 150000, daily_missions := 40,
              referral_levels := 5, is_active := true },
    start_date := 0, end_date := 10, is_active := false, payment_id := none }

/-- C4 scenario users: A (id 1) holds the inactive, expired membership;
B (id 2) has no membership at all; C (id 3, username "carol") is the direct
referrer of the newly registering user (id 4). -/
def usersC4 : List RUser :=
  [{ id := 1, username := "alice", membership := some membInactive },
   { id := 2, username := "bob", membership := none },
   { id := 3, username := "carol", membership := none }]

/-- C4 scenario edges: A referred B, B referred C. -/
def referralsC4 : List Referral :=
  [{ referrer_id := 1, referred_id := 2, level := 1 },
   { referrer_id := 2, referred_id := 3, level := 1 }]

/-- C4 counterexample: registering user 4 with code "carol" creates the
level-3 edge (1, 4) even though ancestor 1's membership is inactive
(is_active = false) and expired (end_date 10 < now), contradicting the claim
that an edge is created only for ancestors with an active, non-expired
membership.  (The level-2 ancestor, with no membership, is skipped while the
walk still advances past them, as the output shows.) -/
theorem C4_inactive_ancestor_gets_edge :
    record_referral usersC4 referralsC4 4 "carol"
      = [{ referrer_id := 3, referred_id := 4, level := 1 },
         { referrer_id := 1, referred_id := 4, level := 3 }] ∧
    membInactive.is_active = false ∧
    membInactive.is_expired 1000 = true := by
  refine ⟨?_, rfl, rfl⟩
  rfl

/-- C4 amended: during the walk, a level-`level` edge (ancestor, new_user)
is created only if the ancestor has a membership — of any activity or expiry
status — whose tier's referral_levels is at least `level`; an ancestor with
no membership or with a tier of insufficient depth gets no edge, while the
walk still advances past them.  Formally: every edge the walk emits points at
the new user, carries one of the walked levels, and its referrer is a stored
user holding a membership whose tier depth covers the edge's level. -/
theorem C4_membership_depth_gates_edges (users : List RUser)
    (referrals : List Referral) (newId : Nat) (levels : List Nat)
    (startId : Nat) (e : Referral)
    (he : e ∈ referral_walk users referrals newId levels startId) :
    e.referred_id = newId ∧ e.level ∈ levels ∧
    ∃ u ∈ users, u.id = e.referrer_id ∧
      ∃ m, u.membership = some m ∧ e.level ≤ m.tier.referral_levels := by
  induction levels generalizing startId with
  | nil => simp [referral_walk] at he
  | cons level rest ih =>
      rw [referral_walk] at he
      split at he
      · simp at he
      · split at he
        · simp at he
        · rename_i rel hfind ind hfu
          rcases List.mem_append.mp he with hgate | hrest
          · split at hgate
            · rename_i m hmem
              split at hgate
              · rename_i hlev
                rcases List.mem_singleton.mp hgate with rfl
                exact ⟨rfl, by simp, ind, List.mem_of_find?_eq_some hfu, rfl, m, hmem, hlev⟩
              · simp at hgate
            · simp at hgate
          · have h := ih ind.id hrest
            exact ⟨h.1, by simp [h.2.1], h.2.2⟩

/-- Witness for C4 amended: the level-3 edge created in the counterexample
scenario indeed points at the new user, carries level 3, and its referrer
(user 1) holds a membership of depth at least 3. -/
theorem C4_membership_depth_gates_edges_witness :
    ({ referrer_id := 1, referred_id := 4, level := 3 } : Referral).referred_id = 4 ∧
    ({ referrer_id := 1, referred_id := 4, level := 3 } : Referral).level ∈ [2, 3, 4, 5] ∧
    ∃ u ∈ usersC4, u.id = ({ referrer_id := 1, referred_id := 4, level := 3 } : Referral).referrer_id ∧
      ∃ m, u.membership = some m ∧
        ({ referrer_id := 1, referred_id := 4, level := 3 } : Referral).level
          ≤ m.tier.referral_levels :=
  C4_membership_depth_gates_edges usersC4 referralsC4 4 [2, 3, 4, 5] 3
    { referrer_id := 1, referred_id := 4, level := 3 } (by decide)

/-- Mission row (src/backend/models.py, class Mission). -/
structure Mission where
  id : Nat
  title : String
  reward : Int
  type : String
  duration : Int
  is_active : Bool
  deriving Repr, DecidableEq

/-- The parsed fields a completion proof's JSON may carry
(src/backend/mission/utils.py): a numeric duration, engagement id and
platform strings, survey responses.  A missing duration defaults to 0 via
`proof_data.get('duration', 0)`; a missing engagement_id or platform is
falsy. -/
structure ProofJson where
  duration : Option ℚ
  engagement_id : Option String
  platform : Option String
  responses : List String
  deriving Repr, DecidableEq

/-- A submitted proof: the empty string (falsy), a non-empty string that is
not valid JSON, or parsed JSON. -/
inductive ProofVal where
  | empty : ProofVal
  | invalid : ProofVal
  | json : ProofJson → ProofVal
  deriving Repr, DecidableEq

/-- validate_mission_completion (src/backend/mission/utils.py lines 5-45):
empty proof fails; for type "ad" the parsed duration must reach 90% of the
mission duration (the literal 0.9, exact as 9/10 here; the Python float
product agrees with the exact value on the integer durations involved); for
"social" both engagement_id and platform must be truthy; for "survey" the
responses list must be non-empty; unparsable JSON fails for those three
types; any other type passes. -/
def validate_mission_completion (mission : Mission) (pf : ProofVal) : Bool :=
  match pf with
  | .empty => false
  | _ =>
    if mission.type = "ad" then
      match pf with
      | .json d => decide ((mission.duration : ℚ) * (9 / 10) ≤ d.duration.getD 0)
      | _ => false
    else if mission.type = "social" then
      match pf with
      | .json d => !(d.engagement_id.getD "").isEmpty && !(d.platform.getD "").isEmpty
      | _ => false
    else if mission.type = "survey" then
      match pf with
      | .json d => !d.responses.isEmpty
      | _ => false
    else true

/-- An ad mission of the C9 scenario with the given required duration. -/
def adMission (d : Int) : Mission :=
  { id := 100, title := "watch", reward := 50, type := "ad", duration := d,
    is_active := true }

/-- A parsed proof carrying only a duration. -/
def durationProof (q : ℚ) : ProofVal :=
  .json { duration := some q, engagement_id := none, platform := none,
          responses := [] }

/-- C9: for a mission of type "ad" with required duration D, a proof whose
parsed duration is d validates exactly when d is at least 90% of D; the
statement is over any mission whose type is "ad". -/
theorem C9_ad_duration_threshold (m : Mission) (d : ℚ) (e p : Option String)
    (rs : List String) (hm : m.type = "ad") :
    validate_mission_completion m
        (.json { duration := some d, engagement_id := e, platform := p,
                 responses := rs }) = true
      ↔ (m.duration : ℚ) * (9 / 10) ≤ d := by
  simp [validate_mission_completion, hm]

/-- Witness for C9 at the claimed concrete inputs: duration 30, proof
duration 28 accepted, proof duration 25 rejected. -/
theorem C9_ad_duration_threshold_witness :
    validate_mission_completion (adMission 30) (durationProof 28) = true ∧
    validate_mission_completion (adMission 30) (durationProof 25) = false := by
  constructor
  · exact (C9_ad_duration_threshold (adMission 30) 28 none none [] rfl).mpr
      (by norm_num [adMission])
  · simp only [durationProof]
    rw [Bool.eq_false_iff]
    intro htrue
    have h25 := (C9_ad_duration_threshold (adMission 30) 25 none none [] rfl).mp htrue
    norm_num [adMission] at h25

/-- MissionCompletion row (src/backend/models.py, class MissionCompletion)
restricted to one user and one calendar day: mission id, the reward snapshot
and the submitted proof. -/
structure MissionCompletion where
  mission_id : Nat
  reward : Int
  pf : ProofVal
  deriving Repr, DecidableEq

/-- The per-request state complete_mission touches for one user on one day:
the user's completions of that day, the wallet and its transaction log. -/
structure MissionState where
  completions : List MissionCompletion
  wallet : Wallet
  txns : List WalletTransaction
  deriving Repr, DecidableEq

/-- complete_mission (src/backend/mission/routes.py lines 99-165): requires
an active non-expired membership, an active mission, no completion of this
mission today, today's completion count below the tier's daily_missions, and
a valid proof; on success it appends the MissionCompletion row and credits
the mission reward via add_funds.  Every failure aborts the request with no
state change. -/
def complete_mission (memb : Option Membership) (now : Int) (mission : Mission)
    (pf : ProofVal) (st : MissionState) : Except String MissionState :=
  match memb with
  | none => .error "Active membership required"
  | some m =>
    if ¬ m.is_active ∨ m.is_expired now then .error "Active membership required"
    else if ¬ mission.is_active then .error "Mission not found"
    else if st.completions.any (fun c => c.mission_id = mission.id) then
      .error "Mission already completed today"
    else if m.tier.daily_missions ≤ st.completions.length then
      .error "Daily mission limit reached"
    else if ¬ validate_mission_completion mission pf then
      .error "Invalid mission completion proof"
    else
      let wt := st.wallet.add_funds mission.reward
        ("Reward for completing mission: " ++ mission.title)
      .ok { completions := st.completions ++ [⟨mission.id, mission.reward, pf⟩],
            wallet := wt.1, txns := st.txns ++ [wt.2] }

/-- Run a day's sequence of completion attempts, stopping at the first
failure. -/
def runMissions (memb : Option Membership) (now : Int) :
    List (Mission × ProofVal) → MissionState → Except String MissionState
  | [], st => .ok st
  | item :: rest, st =>
    match complete_mission memb now item.1 item.2 st with
    | .ok st1 => runMissions memb now rest st1
    | .error e => .error e

lemma complete_mission_ok (m : Membership) (now : Int) (mission : Mission)
    (pf : ProofVal) (st : MissionState)
    (hact : m.is_active = true) (hexp : now ≤ m.end_date)
    (hma : mission.is_active = true)
    (hfresh : ∀ c ∈ st.completions, c.mission_id ≠ mission.id)
    (hquota : st.completions.length < m.tier.daily_missions)
    (hpf : validate_mission_completion mission pf = true) :
    complete_mission (some m) now mission pf st
      = .ok { completions := st.completions ++ [⟨mission.id, mission.reward, pf⟩],
              wallet := (st.wallet.add_funds mission.reward
                ("Reward for completing mission: " ++ mission.title)).1,
              txns := st.txns ++ [(st.wallet.add_funds mission.reward
                ("Reward for completing mission: " ++ mission.title)).2] } := by
  have h1 : ¬ (¬ m.is_active ∨ m.is_expired now) := by
    simp [hact, Membership.is_expired]
    omega
  have h2 : ¬ st.completions.any (fun c => c.mission_id = mission.id) = true := by
    simp only [List.any_eq_true, not_exists]
    intro c
    simp only [decide_eq_true_eq, not_and]
    exact fun hc => hfresh c hc
  have h3 : ¬ m.tier.daily_missions ≤ st.completions.length := not_le.mpr hquota
  simp only [complete_mission, h1, if_false, hma, not_true, h2, h3, hpf,
    not_false_eq_true, if_true]
  simp

lemma runMissions_ok (m : Membership) (now : Int)
    (hact : m.is_active = true) (hexp : now ≤ m.end_date) :
    ∀ (items : List (Mission × ProofVal)) (st : MissionState),
    (items.map (fun it => it.1.id)).Nodup →
    (∀ it ∈ items, it.1.is_active = true ∧
      validate_mission_completion it.1 it.2 = true ∧
      ∀ c ∈ st.completions, c.mission_id ≠ it.1.id) →
    st.completions.length + items.length ≤ m.tier.daily_missions →
    ∃ stN, runMissions (some m) now items st = .ok stN ∧
      stN.completions = st.completions
        ++ items.map (fun it => (⟨it.1.id, it.1.reward, it.2⟩ : MissionCompletion)) := by
  intro items
  induction items with
  | nil =>
      intro st _ _ _
      exact ⟨st, rfl, by simp⟩
  | cons item rest ih =>
      intro st hnodup hok hquota
      have hhead := hok item (by simp)
      have hstep := complete_mission_ok m now item.1 item.2 st hact hexp
        hhead.1 (fun c hc => hhead.2.2 c hc) (by simp at hquota; omega) hhead.2.1
      rw [runMissions, hstep]
      have hnodup' : (rest.map (fun it => it.1.id)).Nodup := by
        simp only [List.map_cons, List.nodup_cons] at hnodup
        exact hnodup.2
      have hhd_not : item.1.id ∉ rest.map (fun it => it.1.id) := by
        simp only [List.map_cons, List.nodup_cons] at hnodup
        exact hnodup.1
      set st1 : MissionState :=
        { completions := st.completions ++ [⟨item.1.id, item.1.reward, item.2⟩],
          wallet := (st.wallet.add_funds item.1.reward
            ("Reward for completing mission: " ++ item.1.title)).1,
          txns := st.txns ++ [(st.wallet.add_funds item.1.reward
            ("Reward for completing mission: " ++ item.1.title)).2] } with hst1
      have hok' : ∀ it ∈ rest, it.1.is_active = true ∧
          validate_mission_completion it.1 it.2 = true ∧
          ∀ c ∈ st1.completions, c.mission_id ≠ it.1.id := by
        intro it hit
        have h := hok it (by simp [hit])
        refine ⟨h.1, h.2.1, ?_⟩
        intro c hc
        rw [hst1] at hc
        simp only [List.mem_append, List.mem_singleton] at hc
        rcases hc with hc | hc
        · exact h.2.2 c hc
        · subst hc
          intro hcontra
          simp only at hcontra
          apply hhd_not
          rw [hcontra]
          exact List.mem_map_of_mem (fun it => it.1.id) hit
      have hquota' : st1.completions.length + rest.length ≤ m.tier.daily_missions := by
        rw [hst1]
        simp only [List.length_append, List.length_cons, List.length_nil]
        simp only [List.length_cons] at hquota
        omega
      rcases ih st1 hnodup' hok' hquota' with ⟨stN, hrun, hcomp⟩
      refine ⟨stN, hrun, ?_⟩
      rw [hcomp, hst1]
      simp

/-- C8: for a user whose usable membership tier allows N daily missions,
given N distinct active missions with valid proofs and no completions yet
today, all N completion calls succeed (producing exactly N completion rows),
and an (N+1)-th call that day on a further fresh active mission with a valid
proof fails with the daily-limit error, so it credits no wallet and appends
no completion row. -/
theorem C8_daily_quota (m : Membership) (now : Int)
    (items : List (Mission × ProofVal)) (st0 : MissionState)
    (extra : Mission) (pf : ProofVal)
    (hact : m.is_active = true) (hexp : now ≤ m.end_date)
    (hlen : items.length = m.tier.daily_missions)
    (hempty : st0.completions = [])
    (hnodup : (items.map (fun it => it.1.id)).Nodup)
    (hok : ∀ it ∈ items, it.1.is_active = true ∧
      validate_mission_completion it.1 it.2 = true)
    (hea : extra.is_active = true)
    (hepf : validate_mission_completion extra pf = true)
    (hefresh : ∀ it ∈ items, extra.id ≠ it.1.id) :
    (runMissions (some m) now items st0).map (fun st => st.completions.length)
      = .ok m.tier.daily_missions ∧
    (runMissions (some m) now items st0).bind
        (complete_mission (some m) now extra pf)
      = .error "Daily mission limit reached" := by
  rcases runMissions_ok m now hact hexp items st0 hnodup
      (fun it hit => ⟨(hok it hit).1, (hok it hit).2, by simp [hempty]⟩)
      (by simp [hempty, hlen]) with ⟨stN, hrun, hcomp⟩
  have hlenN : stN.completions.length = m.tier.daily_missions := by
    rw [hcomp, hempty]
    simp [hlen]
  constructor
  · rw [hrun]
    simp [Except.map, hlenN]
  · rw [hrun]
    have h1 : ¬ (¬ m.is_active ∨ m.is_expired now) := by
      simp [hact, Membership.is_expired]
      omega
    have h2 : ¬ stN.completions.any (fun c => c.mission_id = extra.id) = true := by
      simp only [List.any_eq_true, not_exists]
      intro c
      simp only [decide_eq_true_eq, not_and]
      intro hc
      rw [hcomp, hempty] at hc
      simp only [List.nil_append, List.mem_map] at hc
      rcases hc with ⟨it, hit, hrow⟩
      rw [← hrow]
      exact fun hcontra => hefresh it hit hcontra.symm
    have h3 : m.tier.daily_missions ≤ stN.completions.length := le_of_eq hlenN.symm
    simp only [Except.bind, complete_mission, h1, if_false, hea, not_true, h2, h3,
      if_true]
    simp

/-- Witness for C8: a basic-tier membership (1 daily mission), one ad mission
completed successfully, and a second distinct mission the same day rejected
with the daily-limit error. -/
theorem C8_daily_quota_witness :
    (runMissions
        (some { tier := tierBasic, start_date := 0, end_date := 1000000,
                is_active := true, payment_id := none }) 500
        [(adMission 30, durationProof 28)]
        { completions := [], wallet := wallet0, txns := [] }).map
        (fun st => st.completions.length) = .ok tierBasic.daily_missions ∧
    (runMissions
        (some { tier := tierBasic, start_date := 0, end_date := 1000000,
                is_active := true, payment_id := none }) 500
        [(adMission 30, durationProof 28)]
        { completions := [], wallet := wallet0, txns := [] }).bind
        (complete_mission
          (some { tier := tierBasic, start_date := 0, end_date := 1000000,
                  is_active := true, payment_id := none }) 500
          { id := 101, title := "share", reward := 40, type := "social",
            duration := 0, is_active := true }
          (.json { duration := none, engagement_id := some "e1",
                   platform := some "x", responses := [] }))
      = .error "Daily mission limit reached" :=
  C8_daily_quota
    { tier := tierBasic, start_date := 0, end_date := 1000000,
      is_active := true, payment_id := none } 500
    [(adMission 30, durationProof 28)]
    { completions := [], wallet := wallet0, txns := [] }
    { id := 101, title := "share", reward := 40, type := "social",
      duration := 0, is_active := true }
    (.json { duration := none, engagement_id := some "e1",
             platform := some "x", responses := [] })
    rfl (by norm_num) rfl rfl (by simp)
    (by intro it hit
        rcases List.mem_singleton.mp hit with rfl
        exact ⟨rfl, by norm_num [validate_mission_completion, adMission, durationProof]⟩)
    rfl
    (by simp [validate_mission_completion]
        exact ⟨rfl, rfl⟩)
    (by intro it hit
        rcases List.mem_singleton.mp hit with rfl
        norm_num [adMission])

end ShillEarn
